import Mathlib

/-!
Verification development for the ShopEase order & payment lifecycle engine.

The JavaScript sources (Express route handlers and Mongoose models) are
embedded shallowly: each route handler's core logic becomes a pure Lean
function over explicit state (lists of products, orders and payments),
monetary values are modelled as exact rationals, timestamps as naturals,
and Mongoose string enums as plain strings compared for equality.
External I/O (the axios gateway calls) is modelled by passing the call's
outcome as an argument.
-/

namespace Shop

/-- Catalog stock entry, from the `inventory` subdocument of the Product
schema as used by the routes: a quantity and a flag saying whether
inventory tracking applies.  The quantity is an integer because the JS
number can in principle go below zero. -/
structure Inventory where
  quantity : Int
  trackInventory : Bool
deriving Repr, DecidableEq

/-- Product record, with the fields the order/cart routes read:
`_id` (modelled as a natural), `title`, `price`, `status`
(`active` / `inactive` / `discontinued`) and the inventory subdocument. -/
structure Product where
  pid : Nat
  title : String
  price : ℚ
  status : String
  inventory : Inventory
deriving Repr, DecidableEq

/-- `Product.findById`: first (unique) document with the given id. -/
def findProduct (db : List Product) (pid : Nat) : Option Product :=
  db.find? (fun p => p.pid == pid)

/-- `product.save()`: replace the document with the same id. -/
def saveProduct : List Product → Product → List Product
  | [], _ => []
  | q :: rest, p => if q.pid == p.pid then p :: rest else q :: saveProduct rest p

/-- A requested line item of the order-creation request body:
`{ productId, quantity }` (quantity validated to be a positive integer). -/
structure ReqItem where
  productId : Nat
  quantity : Nat
deriving Repr, DecidableEq

/-- A persisted order line item (`orderItems` entries built by the
createOrder handler): product reference plus title/price snapshots,
quantity and the line total. -/
structure OrderItem where
  product : Nat
  title : String
  price : ℚ
  quantity : Nat
  itemTotal : ℚ
deriving Repr, DecidableEq

/-- The `pricing` subdocument of an Order. -/
structure Pricing where
  subtotal : ℚ
  tax : ℚ
  shipping : ℚ
  total : ℚ
deriving Repr, DecidableEq

/-- Order record (Order schema fields used by the handlers).  Addresses
are opaque to the lifecycle logic and modelled as strings; `oid` models
the Mongo `_id`, `orderId` the human-readable identifier. -/
structure Order where
  oid : Nat
  orderId : String
  user : Nat
  items : List OrderItem
  pricing : Pricing
  shippingAddress : String
  billingAddress : String
  paymentMethod : String
  status : String
  trackingNumber : Option String
  notes : Option String
  cancellationReason : Option String
  cancelledAt : Option Nat
  shippedAt : Option Nat
  deliveredAt : Option Nat
deriving Repr, DecidableEq

/-- The three per-item validation failures of the createOrder handler,
each naming the offending product the way the 400 responses do. -/
inductive OrderError
  | productNotFound (productId : Nat)
  | productNotAvailable (title : String)
  | insufficientInventory (title : String) (available : Int)
deriving Repr, DecidableEq

/-- Per-item validation of the createOrder loop: product must exist, be
`active`, and (when tracking applies) have at least the requested
quantity in stock.  Returns the handler's error when the item fails. -/
def checkItem (db : List Product) (item : ReqItem) : Option OrderError :=
  match findProduct db item.productId with
  | none => some (.productNotFound item.productId)
  | some product =>
    if product.status != "active" then
      some (.productNotAvailable product.title)
    else if product.inventory.trackInventory &&
        product.inventory.quantity < (item.quantity : Int) then
      some (.insufficientInventory product.title product.inventory.quantity)
    else
      none

/-- The validation loop of the createOrder handler: walks the requested
items in order, fails at the first invalid one, otherwise builds the
order line items with price/title snapshots and line totals. -/
def validateItems (db : List Product) : List ReqItem → Except OrderError (List OrderItem)
  | [] => .ok []
  | item :: rest =>
    match findProduct db item.productId with
    | none => .error (.productNotFound item.productId)
    | some product =>
      if product.status != "active" then
        .error (.productNotAvailable product.title)
      else if product.inventory.trackInventory &&
          product.inventory.quantity < (item.quantity : Int) then
        .error (.insufficientInventory product.title product.inventory.quantity)
      else do
        let restItems ← validateItems db rest
        .ok ({ product := product.pid, title := product.title, price := product.price,
               quantity := item.quantity,
               itemTotal := product.price * (item.quantity : ℚ) } :: restItems)

/-- The inventory-update loop after the order is saved: for each
requested item, fetch the product again and, when it tracks inventory,
decrement its quantity by the ordered quantity.  (In the source a
missing product here would throw; after successful validation every
product is present, so the skip branch is unreachable.) -/
def decrementStock (db : List Product) : List ReqItem → List Product
  | [] => db
  | item :: rest =>
    let db' :=
      match findProduct db item.productId with
      | some product =>
        if product.inventory.trackInventory then
          saveProduct db { product with
            inventory := { product.inventory with
              quantity := product.inventory.quantity - (item.quantity : Int) } }
        else db
      | none => db
    decrementStock db' rest

/-- `POST /api/orders`: validate every item, compute the pricing
breakdown (7.5% tax; flat 2500 shipping unless the subtotal exceeds
50000, then free), persist the Order with status `pending` and
billing address defaulting to the shipping address, then decrement
tracked stock.  Returns the response together with the resulting
product state (unchanged on validation failure, since the loop only
validates before any mutation). -/
def createOrder (db : List Product) (oid : Nat) (orderId : String) (user : Nat)
    (items : List ReqItem) (shippingAddress : String)
    (billingAddress : Option String) (paymentMethod : String) :
    Except OrderError Order × List Product :=
  match validateItems db items with
  | .error e => (.error e, db)
  | .ok orderItems =>
    let subtotal : ℚ := (orderItems.map (fun it => it.itemTotal)).sum
    let tax : ℚ := subtotal * (75 / 1000)
    let shipping : ℚ := if subtotal > 50000 then 0 else 2500
    let total : ℚ := subtotal + tax + shipping
    let order : Order :=
      { oid := oid
        orderId := orderId
        user := user
        items := orderItems
        pricing := { subtotal := subtotal, tax := tax, shipping := shipping, total := total }
        shippingAddress := shippingAddress
        billingAddress := billingAddress.getD shippingAddress
        paymentMethod := paymentMethod
        status := "pending"
        trackingNumber := none
        notes := none
        cancellationReason := none
        cancelledAt := none
        shippedAt := none
        deliveredAt := none }
    (.ok order, decrementStock db items)

/-- Failures of the cancel-order handler: 404, 403, and the 400
"Order cannot be cancelled at this stage". -/
inductive CancelError
  | notFound
  | forbidden
  | invalidTransition
deriving Repr, DecidableEq

/-- The inventory-restore loop of the cancel handler: for each order
line item, fetch the product and, when present and tracking inventory,
increment its quantity by the ordered quantity. -/
def restoreStock (db : List Product) : List OrderItem → List Product
  | [] => db
  | item :: rest =>
    let db' :=
      match findProduct db item.product with
      | some product =>
        if product.inventory.trackInventory then
          saveProduct db { product with
            inventory := { product.inventory with
              quantity := product.inventory.quantity + (item.quantity : Int) } }
        else db
      | none => db
    restoreStock db' rest

/-- `PUT /api/orders/:id/cancel`: 404 when the order is missing, 403
when the requester is not the owner, 400 unless the status is `pending`
or `processing`; otherwise restore tracked stock for every line item,
set status `cancelled`, record the reason (defaulting to "Cancelled by
user") and the cancellation timestamp.  Returns the response together
with the resulting product state (unchanged on failure, since the
checks all precede the restore loop). -/
def cancelOrder (db : List Product) (order? : Option Order) (requester : Nat)
    (reason : Option String) (now : Nat) :
    Except CancelError Order × List Product :=
  match order? with
  | none => (.error .notFound, db)
  | some order =>
    if order.user != requester then (.error .forbidden, db)
    else if !(order.status == "pending" || order.status == "processing") then
      (.error .invalidTransition, db)
    else
      let db' := restoreStock db order.items
      (.ok { order with
        status := "cancelled"
        cancellationReason := some (reason.getD "Cancelled by user")
        cancelledAt := some now }, db')

/-- The Order schema's pre-save hook: on a status change, stamp
`shippedAt` / `deliveredAt` / `cancelledAt` the first time the
corresponding status is reached. -/
def orderPreSave (order : Order) (now : Nat) : Order :=
  if order.status == "shipped" && order.shippedAt == none then
    { order with shippedAt := some now }
  else if order.status == "delivered" && order.deliveredAt == none then
    { order with deliveredAt := some now }
  else if order.status == "cancelled" && order.cancelledAt == none then
    { order with cancelledAt := some now }
  else order

/-- `PUT /api/orders/:id/status` (admin): set the requested status
unconditionally, record tracking number and notes when supplied, stamp
`shippedAt` / `deliveredAt` on first reaching those statuses, then save
(which runs the pre-save hook).  The handler performs no check of the
current status against the requested one. -/
def updateOrderStatus (order : Order) (status : String)
    (trackingNumber : Option String) (notes : Option String) (now : Nat) : Order :=
  let order := { order with status := status }
  let order :=
    match trackingNumber with
    | some t => { order with trackingNumber := some t }
    | none => order
  let order :=
    match notes with
    | some n => { order with notes := some n }
    | none => order
  let order :=
    if status == "shipped" && order.shippedAt == none then
      { order with shippedAt := some now }
    else if status == "delivered" && order.deliveredAt == none then
      { order with deliveredAt := some now }
    else order
  orderPreSave order now

/-- A recorded refund (entries of the Payment schema's `refunds`
array). -/
structure Refund where
  amount : ℚ
  reason : String
  processedBy : Option Nat
  refundedAt : Nat
deriving Repr, DecidableEq

/-- The Payment schema's `error` subdocument. -/
structure PaymentError where
  code : Option String
  message : Option String
deriving Repr, DecidableEq

/-- Payment record, with the fields the payment routes and instance
methods use.  `metadata` models the Mixed metadata object as a flat
key-value list (its contents are never inspected by the logic). -/
structure Payment where
  id : Nat
  order : Nat
  user : Nat
  amount : ℚ
  currency : String
  method : String
  gateway : String
  gatewayReference : Option String
  gatewayTransactionId : Option String
  status : String
  refunds : List Refund
  metadata : List (String × String)
  error : Option PaymentError
  completedAt : Option Nat
  failedAt : Option Nat
deriving Repr, DecidableEq

/-- The `totalRefunded` virtual: sum of the recorded refund amounts. -/
def totalRefunded (p : Payment) : ℚ :=
  (p.refunds.map (fun r => r.amount)).sum

/-- `payment.markCompleted(gatewayTransactionId, metadata)`: set status
`completed` and the completion timestamp, record the transaction id when
given and merge the metadata when non-empty (the object-spread merge is
modelled as list append; key order is immaterial to the properties
proved). -/
def markCompleted (p : Payment) (gatewayTransactionId : Option String)
    (metadata : List (String × String)) (now : Nat) : Payment :=
  let p := { p with status := "completed", completedAt := some now }
  let p :=
    match gatewayTransactionId with
    | some t => { p with gatewayTransactionId := some t }
    | none => p
  if metadata.isEmpty then p else { p with metadata := p.metadata ++ metadata }

/-- `payment.markFailed(errorCode, errorMessage)`: set status `failed`
and the failure timestamp, and record the error when a code or message
is given. -/
def markFailed (p : Payment) (errorCode : Option String)
    (errorMessage : Option String) (now : Nat) : Payment :=
  let p := { p with status := "failed", failedAt := some now }
  if errorCode != none || errorMessage != none then
    { p with error := some { code := errorCode, message := errorMessage } }
  else p

/-- `payment.addRefund(amount, reason, processedBy)`: reject a
non-positive amount, reject when the cumulative refunds plus the new
amount would exceed the payment amount; otherwise push the refund and
set the status — the source re-reads the `totalRefunded` virtual after
the push (so the pushed amount is already included) and adds `amount`
once more before comparing against the payment amount. -/
def addRefund (p : Payment) (amount : ℚ) (reason : String)
    (processedBy : Option Nat) (now : Nat) : Except String Payment :=
  if amount ≤ 0 then
    .error "Refund amount must be greater than 0"
  else if totalRefunded p + amount > p.amount then
    .error "Total refund amount cannot exceed payment amount"
  else
    let p' := { p with refunds := p.refunds ++
      [{ amount := amount, reason := reason, processedBy := processedBy,
         refundedAt := now }] }
    if totalRefunded p' + amount ≥ p'.amount then
      .ok { p' with status := "refunded" }
    else
      .ok { p' with status := "partially_refunded" }

/-- The persisted order/payment state the payment routes read and
write. -/
structure Store where
  orders : List Order
  payments : List Payment
deriving Repr, DecidableEq

/-- `Order.findById`. -/
def findOrder (s : Store) (oid : Nat) : Option Order :=
  s.orders.find? (fun o => o.oid == oid)

/-- `order.save()`: replace the order document with the same id. -/
def saveOrder : List Order → Order → List Order
  | [], _ => []
  | q :: rest, o => if q.oid == o.oid then o :: rest else q :: saveOrder rest o

/-- `Payment.findById`. -/
def findPaymentById (s : Store) (id : Nat) : Option Payment :=
  s.payments.find? (fun p => p.id == id)

/-- `Payment.findOne({ gatewayReference: ref })`. -/
def findPaymentByRef (s : Store) (ref : String) : Option Payment :=
  s.payments.find? (fun p => p.gatewayReference == some ref)

/-- `payment.save()`: replace the payment document with the same id. -/
def savePayment : List Payment → Payment → List Payment
  | [], _ => []
  | q :: rest, p => if q.id == p.id then p :: rest else q :: savePayment rest p

/-- The statuses the initiate-payment duplicate check queries for:
`Payment.findOne({ order, status: { $in: [...] } })`. -/
def activeStatuses : List String := ["pending", "processing", "completed"]

/-- The Payment document the initiate handler creates and saves:
amount copied from the order's total, gateway `flutterwave` for method
`card` and the method itself otherwise, status `pending`; then the
method-specific branch stores a gateway correlation reference built
from the order id and `Date.now()`, and moves bank transfers to
`processing`. -/
def newPayment (orderId user : Nat) (amount : ℚ) (method : String)
    (newPid now : Nat) : Payment :=
  let payment : Payment :=
    { id := newPid
      order := orderId
      user := user
      amount := amount
      currency := "NGN"
      method := method
      gateway := if method == "card" then "flutterwave" else method
      gatewayReference := none
      gatewayTransactionId := none
      status := "pending"
      refunds := []
      metadata := []
      error := none
      completedAt := none
      failedAt := none }
  if method == "flutterwave" then
    { payment with gatewayReference := some s!"shopease-{orderId}-{now}" }
  else if method == "paystack" then
    { payment with gatewayReference := some s!"shopease-{orderId}-{now}" }
  else if method == "bank_transfer" then
    { payment with
      gatewayReference := some (s!"TXN-{orderId}-{now}"),
      status := "processing" }
  else payment

/-- Failures of the initiate-payment handler: 404, 403, the 400
"Order is not eligible for payment" and the 400
"Payment already initiated for this order". -/
inductive InitiateError
  | notFound
  | forbidden
  | notEligible
  | duplicatePayment
deriving Repr, DecidableEq

/-- `POST /api/payments/initiate`: 404 when the order is missing, 403
for a non-owner, 400 unless the order status is `pending`, 400 when a
payment with status `pending`, `processing` or `completed` already
exists for the order; otherwise create a Payment with the order's total
as amount, gateway `flutterwave` for method `card` and the method
itself otherwise, status `pending`; then, per method, store a gateway
correlation reference (and, for bank transfers, move the payment to
`processing`).  `newPid` models the id Mongo assigns to the new
document, `now` the `Date.now()` used in the reference strings. -/
def initiatePayment (s : Store) (orderId : Nat) (user : Nat) (method : String)
    (newPid : Nat) (now : Nat) : Except InitiateError Payment × Store :=
  match findOrder s orderId with
  | none => (.error .notFound, s)
  | some order =>
    if order.user != user then (.error .forbidden, s)
    else if order.status != "pending" then (.error .notEligible, s)
    else if (s.payments.find? (fun p =>
        p.order == orderId && activeStatuses.contains p.status)).isSome then
      (.error .duplicatePayment, s)
    else
      let payment := newPayment orderId user order.pricing.total method newPid now
      (.ok payment, { s with payments := s.payments ++ [payment] })

/-- Outcome of an axios call to a gateway: either a response payload or
a thrown error (network failure, non-2xx status, timeout). -/
inductive AxiosOutcome (α : Type)
  | response (data : α)
  | networkError
deriving Repr, DecidableEq

/-- The transaction object of Flutterwave's verification response
(`response.data.data`), with the fields the adapter reads. -/
structure FlwTx where
  status : String
  txId : String
  amount : ℚ
  currency : String
deriving Repr, DecidableEq

/-- The body of Paystack's verification response (`response.data`):
an outer boolean status and the transaction data, whose amount is in
kobo. -/
structure PsTx where
  status : String
  txId : String
  amount : ℚ
  currency : String
deriving Repr, DecidableEq

structure PsResp where
  status : Bool
  data : PsTx
deriving Repr, DecidableEq

/-- The adapters' normalized result object. -/
structure VerificationResult where
  verified : Bool
  transactionId : Option String
  metadata : List (String × String)
  message : Option String
deriving Repr, DecidableEq

/-- `verifyFlutterwavePayment`: verified when the transaction status is
`successful` and its amount is at least the payment amount; any thrown
axios error is caught and reported as the service-unavailable message.
The raw provider payload kept in the metadata is modelled by its
inspected fields. -/
def verifyFlutterwavePayment (payment : Payment) (outcome : AxiosOutcome FlwTx) :
    VerificationResult :=
  match outcome with
  | .networkError =>
    { verified := false, transactionId := none, metadata := [],
      message := some "Payment verification service unavailable" }
  | .response data =>
    if data.status == "successful" && data.amount ≥ payment.amount then
      { verified := true, transactionId := some data.txId,
        metadata := [("amount", toString data.amount), ("currency", data.currency)],
        message := none }
    else
      { verified := false, transactionId := none, metadata := [],
        message := some "Payment verification failed" }

/-- `verifyPaystackPayment`: verified when the outer status is truthy,
the transaction status is `success` and the kobo amount divided by 100
is at least the payment amount; any thrown axios error is caught and
reported as the service-unavailable message. -/
def verifyPaystackPayment (payment : Payment) (outcome : AxiosOutcome PsResp) :
    VerificationResult :=
  match outcome with
  | .networkError =>
    { verified := false, transactionId := none, metadata := [],
      message := some "Payment verification service unavailable" }
  | .response data =>
    if data.status && data.data.status == "success" &&
        data.data.amount / 100 ≥ payment.amount then
      { verified := true, transactionId := some data.data.txId,
        metadata := [("amount", toString (data.data.amount / 100)),
                     ("currency", data.data.currency)],
        message := none }
    else
      { verified := false, transactionId := none, metadata := [],
        message := some "Payment verification failed" }

/-- Failures of the verify-payment route: 404, 403, and the 400
carrying the adapter's failure message. -/
inductive VerifyError
  | notFound
  | forbidden
  | failed (message : String)
deriving Repr, DecidableEq

/-- The gateway outcomes available to a verify-payment call: at most
one adapter is consulted, selected by the payment's gateway. -/
structure GatewayOutcomes where
  flutterwave : AxiosOutcome FlwTx
  paystack : AxiosOutcome PsResp
deriving Repr, DecidableEq

/-- `POST /api/payments/verify/:paymentId`: 404 when the payment is
missing, 403 for a non-owner; then consult the adapter selected by the
payment's gateway (bank transfers and unknown gateways verify as false
with a fixed message).  On a verified result, mark the payment
completed (recording transaction id and metadata) and advance its order
to `processing`; otherwise mark the payment failed with the adapter's
message and return it as a 400.  (In the source a payment whose order
reference does not resolve would throw on the verified path; the model
leaves the orders unchanged in that unreachable case.) -/
def verifyPayment (s : Store) (paymentId : Nat) (requester : Nat)
    (outcomes : GatewayOutcomes) (now : Nat) : Except VerifyError Payment × Store :=
  match findPaymentById s paymentId with
  | none => (.error .notFound, s)
  | some payment =>
    if payment.user != requester then (.error .forbidden, s)
    else
      let result : VerificationResult :=
        if payment.gateway == "flutterwave" then
          verifyFlutterwavePayment payment outcomes.flutterwave
        else if payment.gateway == "paystack" then
          verifyPaystackPayment payment outcomes.paystack
        else if payment.method == "bank_transfer" then
          { verified := false, transactionId := none, metadata := [],
            message := some "Bank transfer payments require manual verification" }
        else
          { verified := false, transactionId := none, metadata := [],
            message := some "Payment verification failed" }
      if result.verified then
        let payment' := markCompleted payment result.transactionId result.metadata now
        let orders' :=
          match findOrder s payment.order with
          | some order => saveOrder s.orders
              (orderPreSave { order with status := "processing" } now)
          | none => s.orders
        (.ok payment', { orders := orders', payments := savePayment s.payments payment' })
      else
        let payment' := markFailed payment none result.message now
        (.error (.failed (result.message.getD "Payment verification failed")),
         { s with payments := savePayment s.payments payment' })

/-- Webhook endpoint responses: 401 on a signature mismatch, 200
otherwise. -/
inductive WebhookResp
  | invalidSignature
  | ok
deriving Repr, DecidableEq

/-- The success branch both webhook handlers share verbatim: look the
payment up by its gateway correlation reference and, only when it is
still `pending`, mark it completed (recording the transaction id and
metadata) and advance its order to `processing`. -/
def completePendingByRef (s : Store) (ref txId : String)
    (meta : List (String × String)) (now : Nat) : Store :=
  match findPaymentByRef s ref with
  | some payment =>
    if payment.status == "pending" then
      let payment' := markCompleted payment (some txId) meta now
      let orders' :=
        match findOrder s payment.order with
        | some order => saveOrder s.orders
            (orderPreSave { order with status := "processing" } now)
        | none => s.orders
      { orders := orders', payments := savePayment s.payments payment' }
    else s
  | none => s

/-- The event data of a Flutterwave webhook delivery, with the fields
the handler reads. -/
structure FlwEvent where
  status : String
  txRef : String
  txId : String
  amount : ℚ
  currency : String
deriving Repr, DecidableEq

/-- `POST /api/payments/webhook/flutterwave`: reject with 401 unless the
`verif-hash` header is present and equal to the configured secret hash;
on a `successful` event, look the payment up by its gateway reference
and, only when it is still `pending`, mark it completed and advance its
order to `processing`; acknowledge with 200 in every non-rejected
case. -/
def flutterwaveWebhook (s : Store) (secretHash : String)
    (signature : Option String) (event : FlwEvent) (now : Nat) :
    WebhookResp × Store :=
  if signature == none || signature != some secretHash then
    (.invalidSignature, s)
  else if event.status == "successful" then
    (.ok, completePendingByRef s event.txRef event.txId
      [("amount", toString event.amount), ("currency", event.currency)] now)
  else (.ok, s)

/-- The event data of a Paystack webhook delivery; the amount is in
kobo. -/
structure PsEvent where
  reference : String
  txId : String
  amount : ℚ
  currency : String
deriving Repr, DecidableEq

/-- `POST /api/payments/webhook/paystack`: recompute the HMAC-SHA512 of
the request body under the secret key (the digest function is a
parameter of the model) and reject with 401 unless the
`x-paystack-signature` header equals it; on a `charge.success` event,
look the payment up by its gateway reference and, only when it is still
`pending`, mark it completed (converting the kobo amount) and advance
its order to `processing`; acknowledge with 200 in every non-rejected
case. -/
def paystackWebhook (s : Store) (secret : String)
    (hmacSha512 : String → String → String) (rawBody : String)
    (signature : Option String) (eventName : String) (event : PsEvent)
    (now : Nat) : WebhookResp × Store :=
  if signature != some (hmacSha512 secret rawBody) then
    (.invalidSignature, s)
  else if eventName == "charge.success" then
    (.ok, completePendingByRef s event.reference event.txId
      [("amount", toString (event.amount / 100)), ("currency", event.currency)] now)
  else (.ok, s)

/-! ### Helper lemmas on product lookup and the stock loops -/

/-- Total quantity the request orders for a given product (an item list
may mention a product several times). -/
def orderedQty (pid : Nat) : List ReqItem → Int
  | [] => 0
  | item :: rest =>
    (if item.productId = pid then (item.quantity : Int) else 0) + orderedQty pid rest

/-- Total quantity an order's line items carry for a given product. -/
def restoredQty (pid : Nat) : List OrderItem → Int
  | [] => 0
  | item :: rest =>
    (if item.product = pid then (item.quantity : Int) else 0) + restoredQty pid rest

/-! ### Concrete example data used by the claim witnesses and counterexamples -/

instance exceptDecidableEq {ε α : Type} [DecidableEq ε] [DecidableEq α] :
    DecidableEq (Except ε α)
  | .ok a, .ok b =>
    if h : a = b then .isTrue (by rw [h])
    else .isFalse (fun hc => by injection hc with h'; exact h h')
  | .error a, .error b =>
    if h : a = b then .isTrue (by rw [h])
    else .isFalse (fun hc => by injection hc with h'; exact h h')
  | .ok _, .error _ => .isFalse (fun hc => by injection hc)
  | .error _, .ok _ => .isFalse (fun hc => by injection hc)

def dbA : List Product :=
  [{ pid := 1, title := "A", price := 10000, status := "active",
     inventory := { quantity := 10, trackInventory := true } }]

def itemsA : List ReqItem := [{ productId := 1, quantity := 2 }]

def oitemsA : List OrderItem :=
  [{ product := 1, title := "A", price := 10000, quantity := 2, itemTotal := 20000 }]

def dbB : List Product :=
  [{ pid := 1, title := "A", price := 10000, status := "active",
     inventory := { quantity := 10, trackInventory := true } },
   { pid := 2, title := "B", price := 3000, status := "active",
     inventory := { quantity := 1, trackInventory := true } }]

def itemsB : List ReqItem :=
  [{ productId := 1, quantity := 2 }, { productId := 2, quantity := 5 }]

def shippedOrder : Order :=
  { oid := 3, orderId := "ORD-3", user := 7,
    items := [{ product := 1, title := "A", price := 10000, quantity := 2,
                itemTotal := 20000 }],
    pricing := { subtotal := 20000, tax := 1500, shipping := 2500, total := 24000 },
    shippingAddress := "addr", billingAddress := "addr", paymentMethod := "card",
    status := "shipped", trackingNumber := none, notes := none,
    cancellationReason := none, cancelledAt := none, shippedAt := some 2,
    deliveredAt := none }

def pendingOrder : Order :=
  { shippedOrder with
    oid := 4
    orderId := "ORD-4"
    status := "pending"
    shippedAt := none }

def deliveredOrder : Order :=
  { shippedOrder with
    oid := 5
    orderId := "ORD-5"
    status := "delivered"
    deliveredAt := some 3 }

def webhookOrder : Order :=
  { pendingOrder with oid := 1, orderId := "ORD-W" }

def webhookPayment : Payment :=
  { id := 1, order := 1, user := 7, amount := 24000, currency := "NGN",
    method := "flutterwave", gateway := "flutterwave",
    gatewayReference := some "shopease-1-5", gatewayTransactionId := none,
    status := "pending", refunds := [], metadata := [], error := none,
    completedAt := none, failedAt := none }

def webhookStore : Store :=
  { orders := [webhookOrder], payments := [webhookPayment] }

def flwEventW : FlwEvent :=
  { status := "successful", txRef := "shopease-1-5", txId := "tx-9",
    amount := 24000, currency := "NGN" }

def psEventW : PsEvent :=
  { reference := "shopease-1-5", txId := "tx-9", amount := 2400000,
    currency := "NGN" }

def ocNet : GatewayOutcomes :=
  { flutterwave := .networkError, paystack := .networkError }

def cancelledPayment : Payment :=
  { webhookPayment with status := "cancelled" }

def dupStore : Store :=
  { orders := [webhookOrder], payments := [cancelledPayment] }

def refundPayment : Payment :=
  { webhookPayment with
    id := 6
    amount := 100
    status := "completed"
    completedAt := some 4 }

def pendingRefundPayment : Payment :=
  { refundPayment with id := 7, status := "pending", completedAt := none }

lemma pid_of_findProduct {db : List Product} {pid : Nat} {p : Product}
    (h : findProduct db pid = some p) : p.pid = pid := by
  have := List.find?_some h
  simpa using this

lemma findProduct_saveProduct_eq {db : List Product} (p : Product) {q : Product}
    (h : findProduct db p.pid = some q) :
    findProduct (saveProduct db p) p.pid = some p := by
  induction db with
  | nil => simp [findProduct] at h
  | cons a rest ih =>
    by_cases ha : a.pid = p.pid
    · rw [saveProduct, if_pos (by simp [ha])]
      rw [findProduct, List.find?_cons_of_pos _ (by simp)]
    · rw [findProduct, List.find?_cons_of_neg _ (by simp [ha])] at h
      rw [saveProduct, if_neg (by simp [ha])]
      rw [findProduct, List.find?_cons_of_neg _ (by simp [ha])]
      exact ih h

lemma findProduct_saveProduct_ne {db : List Product} (p : Product) {pid : Nat}
    (h : pid ≠ p.pid) :
    findProduct (saveProduct db p) pid = findProduct db pid := by
  induction db with
  | nil => rfl
  | cons a rest ih =>
    by_cases ha : a.pid = p.pid
    · rw [saveProduct, if_pos (by simp [ha])]
      rw [findProduct, List.find?_cons_of_neg _ (by simp; omega)]
      rw [findProduct, List.find?_cons_of_neg _ (by simp; omega)]
    · rw [saveProduct, if_neg (by simp [ha])]
      by_cases hap : a.pid = pid
      · rw [findProduct, List.find?_cons_of_pos _ (by simp [hap])]
        rw [findProduct, List.find?_cons_of_pos _ (by simp [hap])]
      · rw [findProduct, List.find?_cons_of_neg _ (by simp [hap])]
        rw [findProduct, List.find?_cons_of_neg _ (by simp [hap])]
        exact ih

/-- Effect of the inventory-decrement loop on any product present in
the database: a tracked product loses exactly the total ordered
quantity; an untracked product is unchanged. -/
lemma decrementStock_find (items : List ReqItem) :
    ∀ (db : List Product) (pid : Nat) (p : Product), findProduct db pid = some p →
    findProduct (decrementStock db items) pid =
      some (if p.inventory.trackInventory then
        { p with inventory := { p.inventory with
            quantity := p.inventory.quantity - orderedQty pid items } }
      else p) := by
  induction items with
  | nil =>
    intro db pid p h
    obtain ⟨pid', title, price, status, ⟨q, tr⟩⟩ := p
    simp only [decrementStock, orderedQty]
    cases tr <;> simp [h]
  | cons item rest ih =>
    intro db pid p h
    have hp : p.pid = pid := pid_of_findProduct h
    rw [decrementStock]
    by_cases hpid : item.productId = pid
    · simp only [hpid, h]
      by_cases htr : p.inventory.trackInventory = true
      · rw [if_pos htr]
        set p₁ : Product := { p with inventory := { p.inventory with
          quantity := p.inventory.quantity - (item.quantity : Int) } } with hp₁
        have hfind : findProduct (saveProduct db p₁) pid = some p₁ := by
          have hpp : p₁.pid = pid := hp
          rw [← hpp] at h ⊢
          exact findProduct_saveProduct_eq p₁ h
        rw [ih (saveProduct db p₁) pid p₁ hfind]
        have htr₁ : p₁.inventory.trackInventory = true := htr
        rw [if_pos htr, if_pos htr₁]
        simp only [hp₁, orderedQty, if_pos hpid, Option.some.injEq,
          Product.mk.injEq, Inventory.mk.injEq, true_and, and_true]
        omega
      · rw [if_neg htr]
        rw [ih db pid p h]
        rw [if_neg htr, if_neg htr]
    · have hq : orderedQty pid (item :: rest) = orderedQty pid rest := by
        simp [orderedQty, hpid]
      rw [hq]
      cases hfp : findProduct db item.productId with
      | none => exact ih db pid p h
      | some prod =>
        have hprod : prod.pid = item.productId := pid_of_findProduct hfp
        dsimp only
        by_cases htr : prod.inventory.trackInventory = true
        · rw [if_pos htr]
          apply ih
          rw [findProduct_saveProduct_ne _ (by simpa [hprod] using Ne.symm hpid)]
          exact h
        · rw [if_neg htr]
          exact ih db pid p h

/-- Effect of the cancel handler's restore loop: a tracked product
gains back exactly the total cancelled quantity; an untracked product
is unchanged. -/
lemma restoreStock_find (items : List OrderItem) :
    ∀ (db : List Product) (pid : Nat) (p : Product), findProduct db pid = some p →
    findProduct (restoreStock db items) pid =
      some (if p.inventory.trackInventory then
        { p with inventory := { p.inventory with
            quantity := p.inventory.quantity + restoredQty pid items } }
      else p) := by
  induction items with
  | nil =>
    intro db pid p h
    obtain ⟨pid', title, price, status, ⟨q, tr⟩⟩ := p
    simp only [restoreStock, restoredQty]
    cases tr <;> simp [h]
  | cons item rest ih =>
    intro db pid p h
    have hp : p.pid = pid := pid_of_findProduct h
    rw [restoreStock]
    by_cases hpid : item.product = pid
    · simp only [hpid, h]
      by_cases htr : p.inventory.trackInventory = true
      · rw [if_pos htr]
        set p₁ : Product := { p with inventory := { p.inventory with
          quantity := p.inventory.quantity + (item.quantity : Int) } } with hp₁
        have hfind : findProduct (saveProduct db p₁) pid = some p₁ := by
          have hpp : p₁.pid = pid := hp
          rw [← hpp] at h ⊢
          exact findProduct_saveProduct_eq p₁ h
        rw [ih (saveProduct db p₁) pid p₁ hfind]
        have htr₁ : p₁.inventory.trackInventory = true := htr
        rw [if_pos htr, if_pos htr₁]
        simp only [hp₁, restoredQty, if_pos hpid, Option.some.injEq,
          Product.mk.injEq, Inventory.mk.injEq, true_and, and_true]
        omega
      · rw [if_neg htr]
        rw [ih db pid p h]
        rw [if_neg htr, if_neg htr]
    · have hq : restoredQty pid (item :: rest) = restoredQty pid rest := by
        simp [restoredQty, hpid]
      rw [hq]
      cases hfp : findProduct db item.product with
      | none => exact ih db pid p h
      | some prod =>
        have hprod : prod.pid = item.product := pid_of_findProduct hfp
        dsimp only
        by_cases htr : prod.inventory.trackInventory = true
        · rw [if_pos htr]
          apply ih
          rw [findProduct_saveProduct_ne _ (by simpa [hprod] using Ne.symm hpid)]
          exact h
        · rw [if_neg htr]
          exact ih db pid p h

/-! ### Helper lemmas on item validation -/

lemma validateItems_itemTotal (db : List Product) :
    ∀ {items : List ReqItem} {oitems : List OrderItem},
    validateItems db items = .ok oitems →
    ∀ oit ∈ oitems, oit.itemTotal = oit.price * (oit.quantity : ℚ) := by
  intro items
  induction items with
  | nil =>
    intro oitems h oit hmem
    rw [validateItems] at h
    cases h
    simp at hmem
  | cons item rest ih =>
    intro oitems h oit hmem
    rw [validateItems] at h
    cases hfp : findProduct db item.productId with
    | none => rw [hfp] at h; dsimp only at h; cases h
    | some product =>
      rw [hfp] at h
      dsimp only at h
      by_cases hst : (product.status != "active") = true
      · rw [if_pos hst] at h; cases h
      · rw [if_neg hst] at h
        by_cases hiv : (product.inventory.trackInventory &&
            product.inventory.quantity < (item.quantity : Int)) = true
        · rw [if_pos hiv] at h; cases h
        · rw [if_neg hiv] at h
          cases hrest : validateItems db rest with
          | error e => rw [hrest] at h; cases h
          | ok restItems =>
            rw [hrest] at h
            cases h
            cases hmem with
            | head => rfl
            | tail b hmem => exact ih hrest oit hmem

lemma checkItem_none {db : List Product} {item : ReqItem}
    (h : checkItem db item = none) :
    ∃ product, findProduct db item.productId = some product ∧
      (product.status != "active") = false ∧
      (product.inventory.trackInventory &&
        product.inventory.quantity < (item.quantity : Int)) = false := by
  rw [checkItem] at h
  cases hfp : findProduct db item.productId with
  | none => rw [hfp] at h; dsimp only at h; cases h
  | some product =>
    rw [hfp] at h
    dsimp only at h
    refine ⟨product, rfl, ?_, ?_⟩
    · by_contra hc
      simp only [Bool.not_eq_false] at hc
      rw [if_pos hc] at h
      cases h
    · by_cases hst : (product.status != "active") = true
      · rw [if_pos hst] at h; cases h
      · rw [if_neg hst] at h
        by_contra hc
        simp only [Bool.not_eq_false] at hc
        rw [if_pos hc] at h
        cases h

lemma validateItems_error_of_checkItem {db : List Product} {item : ReqItem}
    {e : OrderError} (rest : List ReqItem)
    (h : checkItem db item = some e) :
    validateItems db (item :: rest) = .error e := by
  rw [checkItem] at h
  rw [validateItems]
  cases hfp : findProduct db item.productId with
  | none => rw [hfp] at h; dsimp only at h ⊢; cases h; rfl
  | some product =>
    rw [hfp] at h
    dsimp only at h ⊢
    by_cases hst : (product.status != "active") = true
    · rw [if_pos hst] at h ⊢; cases h; rfl
    · rw [if_neg hst] at h ⊢
      by_cases hiv : (product.inventory.trackInventory &&
          product.inventory.quantity < (item.quantity : Int)) = true
      · rw [if_pos hiv] at h ⊢; cases h; rfl
      · rw [if_neg hiv] at h; cases h

lemma validateItems_cons_of_checkItem_none {db : List Product} {item : ReqItem}
    (rest : List ReqItem) (h : checkItem db item = none) {e : OrderError}
    (herr : validateItems db rest = .error e) :
    validateItems db (item :: rest) = .error e := by
  obtain ⟨product, hfp, hst, hiv⟩ := checkItem_none h
  rw [validateItems, hfp]
  dsimp only
  rw [if_neg (by simp [hst]), if_neg (by simp [hiv]), herr]
  rfl

/-- If some requested item fails validation, the whole validation loop
returns the error of (the first) such item. -/
lemma validateItems_error_of_bad (db : List Product) :
    ∀ {items : List ReqItem}, (∃ item ∈ items, checkItem db item ≠ none) →
    ∃ item ∈ items, ∃ e, checkItem db item = some e ∧
      validateItems db items = .error e := by
  intro items
  induction items with
  | nil => rintro ⟨item, hmem, -⟩; simp at hmem
  | cons item rest ih =>
    rintro ⟨bad, hmem, hbad⟩
    cases hc : checkItem db item with
    | some e =>
      exact ⟨item, List.mem_cons_self .., e, hc,
        validateItems_error_of_checkItem rest hc⟩
    | none =>
      have hbadrest : bad ∈ rest := by
        rcases List.mem_cons.mp hmem with rfl | h
        · exact absurd hc hbad
        · exact h
      obtain ⟨it, hit, e, hce, herr⟩ := ih ⟨bad, hbadrest, hbad⟩
      exact ⟨it, List.mem_cons_of_mem _ hit, e, hce,
        validateItems_cons_of_checkItem_none rest hc herr⟩

/-! ### C1 -/

/-- C1: for a request whose items all validate, createOrder produces an
Order with subtotal the sum of unit price times quantity over the line
items, tax 7.5% of the subtotal, shipping the 2500 flat fee when the
subtotal does not exceed 50000 and zero when it does, total =
subtotal + tax + shipping, status `pending`; and the resulting catalog
has every tracked product's stock decremented by exactly the total
ordered quantity, with untracked products unchanged. -/
theorem createOrder_valid_correct
    (db : List Product) (oid : Nat) (orderId : String) (user : Nat)
    (items : List ReqItem) (ship : String) (bill : Option String) (pm : String)
    (oitems : List OrderItem)
    (hval : validateItems db items = .ok oitems) :
    ∃ order db',
      createOrder db oid orderId user items ship bill pm = (.ok order, db') ∧
      order.items = oitems ∧
      order.status = "pending" ∧
      order.pricing.subtotal
        = ((order.items.map (fun it => it.price * (it.quantity : ℚ))).sum) ∧
      order.pricing.tax = order.pricing.subtotal * (75 / 1000) ∧
      order.pricing.shipping
        = (if order.pricing.subtotal > 50000 then (0 : ℚ) else 2500) ∧
      order.pricing.total
        = order.pricing.subtotal + order.pricing.tax + order.pricing.shipping ∧
      (∀ pid p, findProduct db pid = some p →
        findProduct db' pid = some (if p.inventory.trackInventory then
          { p with inventory := { p.inventory with
              quantity := p.inventory.quantity - orderedQty pid items } }
        else p)) := by
  refine ⟨_, _, by rw [createOrder, hval], rfl, rfl, ?_, rfl, rfl, rfl, ?_⟩
  · show ((oitems.map (fun it => it.itemTotal)).sum) = _
    congr 1
    exact List.map_congr_left (fun oit hmem => validateItems_itemTotal db hval oit hmem)
  · intro pid p h
    exact decrementStock_find items db pid p h

/-- Witness for C1, at the claim's own example: one product at price
10000, quantity 2 — subtotal 20000, tax 1500, shipping 2500, total
24000, and the tracked stock drops from 10 to 8. -/
theorem createOrder_valid_correct_witness :
    (validateItems dbA itemsA = .ok oitemsA) ∧
    (∃ order db',
      createOrder dbA 1 "ORD-1" 7 itemsA "addr" none "card" = (.ok order, db') ∧
      order.items = oitemsA ∧
      order.status = "pending" ∧
      order.pricing.subtotal
        = ((order.items.map (fun it => it.price * (it.quantity : ℚ))).sum) ∧
      order.pricing.tax = order.pricing.subtotal * (75 / 1000) ∧
      order.pricing.shipping
        = (if order.pricing.subtotal > 50000 then (0 : ℚ) else 2500) ∧
      order.pricing.total
        = order.pricing.subtotal + order.pricing.tax + order.pricing.shipping ∧
      (∀ pid p, findProduct dbA pid = some p →
        findProduct db' pid = some (if p.inventory.trackInventory then
          { p with inventory := { p.inventory with
              quantity := p.inventory.quantity - orderedQty pid itemsA } }
        else p))) ∧
    ((createOrder dbA 1 "ORD-1" 7 itemsA "addr" none "card").1.map
        (fun o => o.pricing)
      = .ok { subtotal := 20000, tax := 1500, shipping := 2500, total := 24000 }) ∧
    ((createOrder dbA 1 "ORD-1" 7 itemsA "addr" none "card").2.map
        (fun p => p.inventory.quantity) = [8]) :=
  ⟨by norm_num [validateItems, dbA, itemsA, oitemsA, findProduct, Bind.bind, Except.bind],
   createOrder_valid_correct dbA 1 "ORD-1" 7 itemsA "addr" none "card" oitemsA
     (by norm_num [validateItems, dbA, itemsA, oitemsA, findProduct, Bind.bind, Except.bind]),
   by norm_num [createOrder, validateItems, dbA, itemsA, findProduct, Except.map,
     decrementStock, saveProduct, Bind.bind, Except.bind],
   by norm_num [createOrder, validateItems, dbA, itemsA, findProduct, Except.map,
     decrementStock, saveProduct, Bind.bind, Except.bind]⟩

/-! ### C5 -/

/-- C5: createOrder is all-or-nothing — whenever some requested item
fails validation (missing, inactive, or insufficient tracked stock),
the whole operation fails with the error naming the offending product
and the catalog is returned exactly as it was: no product's stock is
mutated, not even for items that individually validated. -/
theorem createOrder_allOrNothing
    (db : List Product) (oid : Nat) (orderId : String) (user : Nat)
    (items : List ReqItem) (ship : String) (bill : Option String) (pm : String)
    (hbad : ∃ item ∈ items, checkItem db item ≠ none) :
    ∃ item ∈ items, ∃ e, checkItem db item = some e ∧
      createOrder db oid orderId user items ship bill pm = (.error e, db) := by
  obtain ⟨it, hmem, e, hce, herr⟩ := validateItems_error_of_bad db hbad
  exact ⟨it, hmem, e, hce, by rw [createOrder, herr]⟩

/-- Witness for C5: a two-item cart whose first item validates but
whose second requests 5 units of a product with stock 1 — the call
fails naming product B and the catalog (including product A's stock)
is returned unchanged. -/
theorem createOrder_allOrNothing_witness :
    (∃ item ∈ itemsB, checkItem dbB item ≠ none) ∧
    (∃ item ∈ itemsB, ∃ e, checkItem dbB item = some e ∧
      createOrder dbB 1 "ORD-2" 7 itemsB "addr" none "card" = (.error e, dbB)) ∧
    (checkItem dbB { productId := 1, quantity := 2 } = none) ∧
    (createOrder dbB 1 "ORD-2" 7 itemsB "addr" none "card"
      = (.error (.insufficientInventory "B" 1), dbB)) :=
  ⟨by decide,
   createOrder_allOrNothing dbB 1 "ORD-2" 7 itemsB "addr" none "card" (by decide),
   by decide,
   by norm_num [createOrder, validateItems, dbB, itemsB, findProduct,
     Bind.bind, Except.bind]⟩

/-! ### C10 -/

/-- C10: when the optional billing address is omitted, the created
Order's billing address equals its shipping address; when supplied, it
is stored as given. -/
theorem createOrder_billingAddress_default
    (db : List Product) (oid : Nat) (orderId : String) (user : Nat)
    (items : List ReqItem) (ship : String) (pm : String)
    (oitems : List OrderItem)
    (hval : validateItems db items = .ok oitems) :
    (∃ order db',
      createOrder db oid orderId user items ship none pm = (.ok order, db') ∧
      order.billingAddress = ship ∧ order.shippingAddress = ship) ∧
    (∀ bill, ∃ order db',
      createOrder db oid orderId user items ship (some bill) pm = (.ok order, db') ∧
      order.billingAddress = bill) := by
  constructor
  · exact ⟨_, _, by rw [createOrder, hval], rfl, rfl⟩
  · intro bill
    exact ⟨_, _, by rw [createOrder, hval], rfl⟩

/-- Witness for C10: with the billing address omitted the stored
billing address is the shipping address "addr"; with "bill-addr"
supplied it is stored as given. -/
theorem createOrder_billingAddress_default_witness :
    (validateItems dbA itemsA = .ok oitemsA) ∧
    ((∃ order db',
      createOrder dbA 1 "ORD-1" 7 itemsA "addr" none "card" = (.ok order, db') ∧
      order.billingAddress = "addr" ∧ order.shippingAddress = "addr") ∧
    (∀ bill, ∃ order db',
      createOrder dbA 1 "ORD-1" 7 itemsA "addr" (some bill) "card" = (.ok order, db') ∧
      order.billingAddress = bill)) :=
  ⟨by norm_num [validateItems, dbA, itemsA, oitemsA, findProduct, Bind.bind, Except.bind],
   createOrder_billingAddress_default dbA 1 "ORD-1" 7 itemsA "addr" "card" oitemsA
     (by norm_num [validateItems, dbA, itemsA, oitemsA, findProduct, Bind.bind, Except.bind])⟩

/-! ### C8 -/

/-- C8: cancelOrder fails with NotFound on a missing order, Forbidden
for a non-owner, InvalidTransition for any status other than `pending`
or `processing` (leaving the catalog, and the order, unchanged — in
particular for a `shipped` order); and on success restores the tracked
stock of every line item by the ordered quantity, sets status
`cancelled` and records the reason and the cancellation timestamp. -/
theorem cancelOrder_spec
    (db : List Product) (requester : Nat) (reason : Option String) (now : Nat) :
    (cancelOrder db none requester reason now = (.error .notFound, db)) ∧
    (∀ order, order.user ≠ requester →
      cancelOrder db (some order) requester reason now = (.error .forbidden, db)) ∧
    (∀ order, order.user = requester →
      order.status ≠ "pending" → order.status ≠ "processing" →
      cancelOrder db (some order) requester reason now
        = (.error .invalidTransition, db)) ∧
    (∀ order, order.user = requester →
      (order.status = "pending" ∨ order.status = "processing") →
      ∃ order' db',
        cancelOrder db (some order) requester reason now = (.ok order', db') ∧
        order'.status = "cancelled" ∧
        order'.cancellationReason = some (reason.getD "Cancelled by user") ∧
        order'.cancelledAt = some now ∧
        order'.items = order.items ∧
        (∀ pid p, findProduct db pid = some p →
          findProduct db' pid = some (if p.inventory.trackInventory then
            { p with inventory := { p.inventory with
                quantity := p.inventory.quantity + restoredQty pid order.items } }
          else p))) := by
  refine ⟨rfl, ?_, ?_, ?_⟩
  · intro order h
    rw [cancelOrder, if_pos (by simpa using h)]
  · intro order huser hp hpr
    rw [cancelOrder, if_neg (by simpa using huser),
      if_pos (by simp [hp, hpr])]
  · intro order huser hst
    rw [cancelOrder, if_neg (by simpa using huser),
      if_neg (by rcases hst with h | h <;> simp [h])]
    exact ⟨_, _, rfl, rfl, rfl, rfl, rfl,
      fun pid p h => restoreStock_find order.items db pid p h⟩

/-- Witness for C8: cancelling a `shipped` order fails with
InvalidTransition and returns the catalog unchanged; cancelling a
`pending` order of the same shape succeeds, restores the tracked stock
from 10 back up by the ordered quantity 2, and records reason and
timestamp. -/
theorem cancelOrder_spec_witness :
    (shippedOrder.user = 7 ∧ shippedOrder.status ≠ "pending" ∧
      shippedOrder.status ≠ "processing" ∧
      cancelOrder dbA (some shippedOrder) 7 none 5
        = (.error .invalidTransition, dbA)) ∧
    (pendingOrder.user = 7 ∧ (pendingOrder.status = "pending" ∨
      pendingOrder.status = "processing") ∧
      ∃ order' db',
        cancelOrder dbA (some pendingOrder) 7 none 5 = (.ok order', db') ∧
        order'.status = "cancelled" ∧
        order'.cancellationReason = some "Cancelled by user" ∧
        order'.cancelledAt = some 5 ∧
        order'.items = pendingOrder.items ∧
        (∀ pid p, findProduct dbA pid = some p →
          findProduct db' pid = some (if p.inventory.trackInventory then
            { p with inventory := { p.inventory with
                quantity := p.inventory.quantity + restoredQty pid pendingOrder.items } }
          else p))) :=
  ⟨⟨rfl, by decide, by decide,
    (cancelOrder_spec dbA 7 none 5).2.2.1 shippedOrder rfl (by decide) (by decide)⟩,
   ⟨rfl, Or.inl rfl,
    (cancelOrder_spec dbA 7 none 5).2.2.2 pendingOrder rfl (Or.inl rfl)⟩⟩

/-! ### C7 -/

/-- C7 counterexample: the admin status route enforces no state
machine — requesting status `pending` on a `delivered` (terminal)
order is not rejected: the order's status is simply overwritten. -/
theorem updateOrderStatus_no_state_machine :
    deliveredOrder.status = "delivered" ∧
    (updateOrderStatus deliveredOrder "pending" none none 9).status = "pending" ∧
    updateOrderStatus deliveredOrder "pending" none none 9 ≠ deliveredOrder := by
  refine ⟨rfl, rfl, ?_⟩
  intro h
  have := congrArg Order.status h
  simp [updateOrderStatus, orderPreSave, deliveredOrder, shippedOrder] at this

/-- C7 amended: the status-update handler performs no transition
validation.  It applies any requested status unconditionally (also out
of the terminal states and backwards), records the tracking number and
notes when supplied, and stamps shippedAt / deliveredAt / cancelledAt
only when the corresponding status is reached with the timestamp still
unset (existing timestamps are preserved). -/
lemma orderPreSave_status (g : Order) (now : Nat) :
    (orderPreSave g now).status = g.status := by
  unfold orderPreSave; split_ifs <;> rfl

lemma orderPreSave_trackingNumber (g : Order) (now : Nat) :
    (orderPreSave g now).trackingNumber = g.trackingNumber := by
  unfold orderPreSave; split_ifs <;> rfl

lemma orderPreSave_notes (g : Order) (now : Nat) :
    (orderPreSave g now).notes = g.notes := by
  unfold orderPreSave; split_ifs <;> rfl

lemma orderPreSave_shippedAt (g : Order) (now : Nat) :
    (orderPreSave g now).shippedAt =
      if g.status == "shipped" && g.shippedAt == none then some now
      else g.shippedAt := by
  unfold orderPreSave; split_ifs <;> simp_all

lemma orderPreSave_deliveredAt (g : Order) (now : Nat) :
    (orderPreSave g now).deliveredAt =
      if !(g.status == "shipped" && g.shippedAt == none) &&
          (g.status == "delivered" && g.deliveredAt == none) then some now
      else g.deliveredAt := by
  unfold orderPreSave; split_ifs <;> simp_all

lemma orderPreSave_cancelledAt (g : Order) (now : Nat) :
    (orderPreSave g now).cancelledAt =
      if !(g.status == "shipped" && g.shippedAt == none) &&
          !(g.status == "delivered" && g.deliveredAt == none) &&
          (g.status == "cancelled" && g.cancelledAt == none) then some now
      else g.cancelledAt := by
  unfold orderPreSave; split_ifs <;> simp_all

/-- Closed form of the status-update handler: field-by-field effect of
the sequential mutations followed by the pre-save hook. -/
lemma updateOrderStatus_eq (order : Order) (status : String)
    (tn notes : Option String) (now : Nat) :
    updateOrderStatus order status tn notes now = orderPreSave
      { order with
        status := status
        trackingNumber := tn.or order.trackingNumber
        notes := notes.or order.notes
        shippedAt :=
          if status == "shipped" && order.shippedAt == none then some now
          else order.shippedAt
        deliveredAt :=
          if !(status == "shipped" && order.shippedAt == none) &&
              (status == "delivered" && order.deliveredAt == none) then some now
          else order.deliveredAt } now := by
  unfold updateOrderStatus
  rcases tn with _ | t <;> rcases notes with _ | n <;> dsimp only <;>
  · by_cases h1 : (status == "shipped" && order.shippedAt == none) = true
    · rw [if_pos h1]
      simp [h1, Option.or]
    · rw [if_neg h1]
      by_cases h2 : (status == "delivered" && order.deliveredAt == none) = true
      · rw [if_pos h2]
        simp [h1, h2, Option.or]
      · rw [if_neg h2]
        simp [h1, h2, Option.or]

theorem updateOrderStatus_applies_any
    (order : Order) (status : String) (tn notes : Option String) (now : Nat) :
    ((updateOrderStatus order status tn notes now).status = status) ∧
    (∀ t, tn = some t →
      (updateOrderStatus order status tn notes now).trackingNumber = some t) ∧
    (∀ n, notes = some n →
      (updateOrderStatus order status tn notes now).notes = some n) ∧
    (status = "shipped" → order.shippedAt = none →
      (updateOrderStatus order status tn notes now).shippedAt = some now) ∧
    (status = "delivered" → order.deliveredAt = none →
      (updateOrderStatus order status tn notes now).deliveredAt = some now) ∧
    (status = "cancelled" → order.cancelledAt = none →
      (updateOrderStatus order status tn notes now).cancelledAt = some now) ∧
    (∀ t, order.shippedAt = some t →
      (updateOrderStatus order status tn notes now).shippedAt = some t) ∧
    (∀ t, order.deliveredAt = some t →
      (updateOrderStatus order status tn notes now).deliveredAt = some t) := by
  refine ⟨?_, ?_, ?_, ?_, ?_, ?_, ?_, ?_⟩
  · rw [updateOrderStatus_eq, orderPreSave_status]
  · rintro t rfl
    rw [updateOrderStatus_eq, orderPreSave_trackingNumber]
    rfl
  · rintro n rfl
    rw [updateOrderStatus_eq, orderPreSave_notes]
    rfl
  · rintro rfl hnone
    rw [updateOrderStatus_eq, orderPreSave_shippedAt]
    simp [hnone]
  · rintro rfl hnone
    rw [updateOrderStatus_eq, orderPreSave_deliveredAt]
    simp [hnone]
  · rintro rfl hnone
    rw [updateOrderStatus_eq, orderPreSave_cancelledAt]
    simp [hnone]
  · rintro t hs
    rw [updateOrderStatus_eq, orderPreSave_shippedAt]
    simp [hs]
  · rintro t hd
    rw [updateOrderStatus_eq, orderPreSave_deliveredAt]
    simp [hd]

/-- Witness for C7's amended theorem, at the counterexample input: the
`delivered` order requested back to `pending`. -/
theorem updateOrderStatus_applies_any_witness :
    ((updateOrderStatus deliveredOrder "pending" none none 9).status = "pending") ∧
    (∀ t, deliveredOrder.deliveredAt = some t →
      (updateOrderStatus deliveredOrder "pending" none none 9).deliveredAt = some t) :=
  ⟨(updateOrderStatus_applies_any deliveredOrder "pending" none none 9).1,
   (updateOrderStatus_applies_any deliveredOrder "pending" none none 9).2.2.2.2.2.2.2⟩

/-! ### Helper lemmas on payments, orders and webhook reconciliation -/

lemma markCompleted_id (p : Payment) (t : Option String)
    (meta : List (String × String)) (now : Nat) :
    (markCompleted p t meta now).id = p.id := by
  unfold markCompleted
  rcases t with _ | t <;> dsimp only <;> split_ifs <;> rfl

lemma markCompleted_order (p : Payment) (t : Option String)
    (meta : List (String × String)) (now : Nat) :
    (markCompleted p t meta now).order = p.order := by
  unfold markCompleted
  rcases t with _ | t <;> dsimp only <;> split_ifs <;> rfl

lemma markCompleted_gatewayReference (p : Payment) (t : Option String)
    (meta : List (String × String)) (now : Nat) :
    (markCompleted p t meta now).gatewayReference = p.gatewayReference := by
  unfold markCompleted
  rcases t with _ | t <;> dsimp only <;> split_ifs <;> rfl

lemma markCompleted_status (p : Payment) (t : Option String)
    (meta : List (String × String)) (now : Nat) :
    (markCompleted p t meta now).status = "completed" := by
  unfold markCompleted
  rcases t with _ | t <;> dsimp only <;> split_ifs <;> rfl

lemma find?_savePayment_eq {payments : List Payment} {ref : String} {p : Payment}
    (p' : Payment)
    (hnd : (payments.map (fun q => q.id)).Nodup)
    (hfind : payments.find? (fun q => q.gatewayReference == some ref) = some p)
    (hid : p'.id = p.id) (href : p'.gatewayReference = some ref) :
    (savePayment payments p').find? (fun q => q.gatewayReference == some ref)
      = some p' := by
  induction payments with
  | nil => simp at hfind
  | cons a rest ih =>
    rw [List.map_cons, List.nodup_cons] at hnd
    by_cases ha : (a.gatewayReference == some ref) = true
    · rw [List.find?_cons_of_pos _ (by exact ha)] at hfind
      injection hfind with hap
      rw [savePayment, if_pos (by simp [hid, hap])]
      rw [List.find?_cons_of_pos _ (by simp [href])]
    · rw [List.find?_cons_of_neg _ (by exact ha)] at hfind
      have hmem : p ∈ rest := List.mem_of_find?_eq_some hfind
      have hane : ¬(a.id == p'.id) = true := by
        simp only [beq_iff_eq, hid]
        intro hc
        exact hnd.1 (hc ▸ List.mem_map_of_mem (fun q => q.id) hmem)
      rw [savePayment, if_neg hane]
      rw [List.find?_cons_of_neg _ (by exact ha)]
      exact ih hnd.2 hfind

lemma find?_saveOrder_eq {orders : List Order} (o' : Order) {q : Order}
    (h : orders.find? (fun x => x.oid == o'.oid) = some q) :
    (saveOrder orders o').find? (fun x => x.oid == o'.oid) = some o' := by
  induction orders with
  | nil => simp at h
  | cons a rest ih =>
    by_cases ha : a.oid = o'.oid
    · rw [saveOrder, if_pos (by simp [ha])]
      rw [List.find?_cons_of_pos _ (by simp)]
    · rw [List.find?_cons_of_neg _ (by simp [ha])] at h
      rw [saveOrder, if_neg (by simp [ha])]
      rw [List.find?_cons_of_neg _ (by simp [ha])]
      exact ih h

/-- The Order pre-save hook stamps nothing on a transition to
`processing`. -/
lemma orderPreSave_processing (o : Order) (now : Nat) :
    orderPreSave { o with status := "processing" } now
      = { o with status := "processing" } := rfl

/-- Reconciliation of a validly signed charge-success event: when the
payment identified by the gateway reference is still `pending` and its
order exists, the shared success branch completes the payment, advances
the order to `processing`, and is idempotent — running it again (with
any transaction id, metadata or timestamp) leaves the store exactly as
it was. -/
lemma completePendingByRef_spec
    (s : Store) (ref txId : String) (meta : List (String × String)) (now : Nat)
    (p : Payment) (o : Order)
    (hnd : (s.payments.map (fun q => q.id)).Nodup)
    (hp : findPaymentByRef s ref = some p)
    (hpend : p.status = "pending")
    (ho : findOrder s p.order = some o) :
    findPaymentByRef (completePendingByRef s ref txId meta now) ref
      = some (markCompleted p (some txId) meta now) ∧
    findOrder (completePendingByRef s ref txId meta now) p.order
      = some { o with status := "processing" } ∧
    (∀ txId₂ meta₂ now₂,
      completePendingByRef (completePendingByRef s ref txId meta now)
        ref txId₂ meta₂ now₂ = completePendingByRef s ref txId meta now) := by
  have hporef : p.gatewayReference = some ref := by
    have := List.find?_some hp
    simpa using this
  have hooid : o.oid = p.order := by
    have := List.find?_some ho
    simpa using this
  have hs₁ : completePendingByRef s ref txId meta now =
      { orders := saveOrder s.orders { o with status := "processing" },
        payments := savePayment s.payments (markCompleted p (some txId) meta now) } := by
    unfold completePendingByRef
    rw [hp]
    dsimp only
    rw [if_pos (by simp [hpend]), ho]
    dsimp only
    rw [orderPreSave_processing]
  have h1 : findPaymentByRef (completePendingByRef s ref txId meta now) ref
      = some (markCompleted p (some txId) meta now) := by
    rw [hs₁]
    exact find?_savePayment_eq _ hnd hp (markCompleted_id ..)
      ((markCompleted_gatewayReference ..).trans hporef)
  refine ⟨h1, ?_, ?_⟩
  · rw [hs₁]
    show (saveOrder s.orders { o with status := "processing" }).find?
      (fun x => x.oid == p.order) = _
    have hoid' : ({ o with status := "processing" } : Order).oid = p.order := hooid
    simp only [← hoid']
    have ho' : List.find? (fun x => x.oid
        == ({ o with status := "processing" } : Order).oid) s.orders = some o := by
      rw [hoid']
      simpa only [findOrder] using ho
    exact find?_saveOrder_eq _ ho'
  · intro txId₂ meta₂ now₂
    conv_lhs => rw [completePendingByRef]
    rw [h1]
    dsimp only
    rw [if_neg (by simp [markCompleted_status])]

/-! ### C2 -/

/-- C2: webhook processing is idempotent.  For each gateway, a validly
signed charge-success delivery whose payment is still `pending`
completes that payment and advances its order to `processing`; an
identical second delivery (at any later time) is still acknowledged
with success and leaves the store — the completed payment included —
entirely unchanged. -/
theorem webhook_idempotent :
    (∀ (s : Store) (secretHash : String) (event : FlwEvent) (now now' : Nat)
        (p : Payment) (o : Order),
      (s.payments.map (fun q => q.id)).Nodup →
      event.status = "successful" →
      findPaymentByRef s event.txRef = some p →
      p.status = "pending" →
      findOrder s p.order = some o →
      ∃ s₁,
        flutterwaveWebhook s secretHash (some secretHash) event now = (.ok, s₁) ∧
        (findPaymentByRef s₁ event.txRef).map (fun q => q.status)
          = some "completed" ∧
        (findOrder s₁ p.order).map (fun q => q.status) = some "processing" ∧
        flutterwaveWebhook s₁ secretHash (some secretHash) event now'
          = (.ok, s₁)) ∧
    (∀ (s : Store) (secret rawBody : String)
        (hmacSha512 : String → String → String) (event : PsEvent)
        (now now' : Nat) (p : Payment) (o : Order),
      (s.payments.map (fun q => q.id)).Nodup →
      findPaymentByRef s event.reference = some p →
      p.status = "pending" →
      findOrder s p.order = some o →
      ∃ s₁,
        paystackWebhook s secret hmacSha512 rawBody
          (some (hmacSha512 secret rawBody)) "charge.success" event now
          = (.ok, s₁) ∧
        (findPaymentByRef s₁ event.reference).map (fun q => q.status)
          = some "completed" ∧
        (findOrder s₁ p.order).map (fun q => q.status) = some "processing" ∧
        paystackWebhook s₁ secret hmacSha512 rawBody
          (some (hmacSha512 secret rawBody)) "charge.success" event now'
          = (.ok, s₁)) := by
  constructor
  · intro s secretHash event now now' p o hnd hst hp hpend ho
    obtain ⟨h1, h2, h3⟩ := completePendingByRef_spec s event.txRef event.txId
      [("amount", toString event.amount), ("currency", event.currency)] now
      p o hnd hp hpend ho
    refine ⟨completePendingByRef s event.txRef event.txId
      [("amount", toString event.amount), ("currency", event.currency)] now,
      ?_, ?_, ?_, ?_⟩
    · unfold flutterwaveWebhook
      rw [if_neg (by simp), if_pos (by simp [hst])]
    · rw [h1]
      simp [markCompleted_status]
    · rw [h2]
      rfl
    · unfold flutterwaveWebhook
      rw [if_neg (by simp), if_pos (by simp [hst]),
        h3 event.txId _ now']
  · intro s secret rawBody hmacSha512 event now now' p o hnd hp hpend ho
    obtain ⟨h1, h2, h3⟩ := completePendingByRef_spec s event.reference event.txId
      [("amount", toString (event.amount / 100)), ("currency", event.currency)] now
      p o hnd hp hpend ho
    refine ⟨completePendingByRef s event.reference event.txId
      [("amount", toString (event.amount / 100)), ("currency", event.currency)] now,
      ?_, ?_, ?_, ?_⟩
    · unfold paystackWebhook
      rw [if_neg (by simp), if_pos (by simp)]
    · rw [h1]
      simp [markCompleted_status]
    · rw [h2]
      rfl
    · unfold paystackWebhook
      rw [if_neg (by simp), if_pos (by simp), h3 event.txId _ now']

/-- Witness for C2, on a one-payment/one-order store: the Flutterwave
and Paystack deliveries each complete the pending payment and advance
the order, and redelivery at a later timestamp changes nothing. -/
theorem webhook_idempotent_witness :
    ((webhookStore.payments.map (fun q => q.id)).Nodup ∧
      flwEventW.status = "successful" ∧
      findPaymentByRef webhookStore flwEventW.txRef = some webhookPayment ∧
      webhookPayment.status = "pending" ∧
      findOrder webhookStore webhookPayment.order = some webhookOrder) ∧
    (∃ s₁,
      flutterwaveWebhook webhookStore "sec" (some "sec") flwEventW 5 = (.ok, s₁) ∧
      (findPaymentByRef s₁ flwEventW.txRef).map (fun q => q.status)
        = some "completed" ∧
      (findOrder s₁ webhookPayment.order).map (fun q => q.status)
        = some "processing" ∧
      flutterwaveWebhook s₁ "sec" (some "sec") flwEventW 6 = (.ok, s₁)) ∧
    (∃ s₁,
      paystackWebhook webhookStore "sec" (fun a b => a ++ b) "raw"
        (some ("sec" ++ "raw")) "charge.success" psEventW 5 = (.ok, s₁) ∧
      (findPaymentByRef s₁ psEventW.reference).map (fun q => q.status)
        = some "completed" ∧
      (findOrder s₁ webhookPayment.order).map (fun q => q.status)
        = some "processing" ∧
      paystackWebhook s₁ "sec" (fun a b => a ++ b) "raw"
        (some ("sec" ++ "raw")) "charge.success" psEventW 6 = (.ok, s₁)) :=
  ⟨⟨by decide, rfl, by decide, rfl, by decide⟩,
   webhook_idempotent.1 webhookStore "sec" flwEventW 5 6 webhookPayment
     webhookOrder (by decide) rfl (by decide) rfl (by decide),
   webhook_idempotent.2 webhookStore "sec" "raw" (fun a b => a ++ b) psEventW 5 6
     webhookPayment webhookOrder (by decide) (by decide) rfl (by decide)⟩

/-! ### C9 -/

/-- C9: a webhook delivery whose signature header does not equal the
value derived from the pre-shared secret (for Flutterwave the secret
hash itself, for Paystack the HMAC-SHA512 digest of the raw body) is
rejected with the invalid-signature response and the store is returned
exactly as it was — no payment or order is touched. -/
theorem webhook_invalid_signature :
    (∀ (s : Store) (secretHash : String) (signature : Option String)
        (event : FlwEvent) (now : Nat),
      signature ≠ some secretHash →
      flutterwaveWebhook s secretHash signature event now
        = (.invalidSignature, s)) ∧
    (∀ (s : Store) (secret : String)
        (hmacSha512 : String → String → String) (rawBody : String)
        (signature : Option String) (eventName : String) (event : PsEvent)
        (now : Nat),
      signature ≠ some (hmacSha512 secret rawBody) →
      paystackWebhook s secret hmacSha512 rawBody signature eventName event now
        = (.invalidSignature, s)) := by
  constructor
  · intro s secretHash signature event now h
    unfold flutterwaveWebhook
    rw [if_pos]
    rcases signature with _ | sig
    · simp
    · simp
      intro hc
      exact h (by rw [hc])
  · intro s secret hmacSha512 rawBody signature eventName event now h
    unfold paystackWebhook
    rw [if_pos]
    simpa using h

/-- Witness for C9: a wrong header and a missing header are both
rejected with the store unchanged, for both gateways. -/
theorem webhook_invalid_signature_witness :
    ((some "wrong" : Option String) ≠ some "sec" ∧
      flutterwaveWebhook webhookStore "sec" (some "wrong") flwEventW 5
        = (.invalidSignature, webhookStore)) ∧
    ((none : Option String) ≠ some "sec" ∧
      flutterwaveWebhook webhookStore "sec" none flwEventW 5
        = (.invalidSignature, webhookStore)) ∧
    ((some "wrong" : Option String) ≠ some ("sec" ++ "raw") ∧
      paystackWebhook webhookStore "sec" (fun a b => a ++ b) "raw"
        (some "wrong") "charge.success" psEventW 5
        = (.invalidSignature, webhookStore)) :=
  ⟨⟨by decide, webhook_invalid_signature.1 webhookStore "sec" (some "wrong")
      flwEventW 5 (by decide)⟩,
   ⟨by decide, webhook_invalid_signature.1 webhookStore "sec" none
      flwEventW 5 (by decide)⟩,
   ⟨by decide, webhook_invalid_signature.2 webhookStore "sec" (fun a b => a ++ b)
      "raw" (some "wrong") "charge.success" psEventW 5 (by decide)⟩⟩

/-! ### C3 -/

/-- C3 counterexample: when the gateway adapter call errors out
(network failure), the verify route does NOT leave the Payment
unchanged — it marks it `failed`, stamps `failedAt` and records the
unavailability message as the payment's error. -/
theorem verifyPayment_unavailable_counterexample :
    (findPaymentById webhookStore 1).map (fun q => (q.status, q.failedAt, q.error))
      = some ("pending", none, none) ∧
    ((verifyPayment webhookStore 1 7 ocNet 9).2.payments.map
      (fun q => (q.status, q.failedAt))) = [("failed", some 9)] ∧
    ((verifyPayment webhookStore 1 7 ocNet 9).2.payments.map (fun q => q.error))
      = [some { code := none, message := some "Payment verification service unavailable" }] ∧
    (verifyPayment webhookStore 1 7 ocNet 9).2 ≠ webhookStore := by
  refine ⟨by decide, by decide, by decide, by decide⟩

/-- C3 amended: when the adapter cannot reach the provider, the verify
route reports the message "Payment verification service unavailable"
as a failure response and marks the Payment failed — status `failed`,
`failedAt` stamped, and the message recorded as the payment's error —
exactly as for any other non-verified outcome; the Payment is not left
unchanged. -/
theorem verifyPayment_unavailable_marks_failed
    (s : Store) (pid requester : Nat) (outcomes : GatewayOutcomes) (now : Nat)
    (p : Payment)
    (hfind : findPaymentById s pid = some p)
    (huser : p.user = requester)
    (hgw : (p.gateway = "flutterwave" ∧ outcomes.flutterwave = .networkError) ∨
           (p.gateway = "paystack" ∧ outcomes.paystack = .networkError)) :
    verifyPayment s pid requester outcomes now =
      (.error (.failed "Payment verification service unavailable"),
       { s with payments := savePayment s.payments (markFailed p none (some "Payment verification service unavailable") now) }) := by
  unfold verifyPayment
  rw [hfind]
  dsimp only
  rw [if_neg (by simp [huser])]
  rcases hgw with ⟨hg, hoc⟩ | ⟨hg, hoc⟩
  · rw [hg, hoc]
    simp [verifyFlutterwavePayment]
  · rw [hg, hoc]
    simp [verifyPaystackPayment]

/-- Witness for C3's amended theorem at the counterexample input. -/
theorem verifyPayment_unavailable_marks_failed_witness :
    (findPaymentById webhookStore 1 = some webhookPayment ∧
      webhookPayment.user = 7 ∧ webhookPayment.gateway = "flutterwave" ∧
      ocNet.flutterwave = .networkError) ∧
    verifyPayment webhookStore 1 7 ocNet 9 =
      (.error (.failed "Payment verification service unavailable"),
       { webhookStore with payments := savePayment webhookStore.payments (markFailed webhookPayment none (some "Payment verification service unavailable") 9) }) :=
  ⟨⟨by decide, rfl, rfl, rfl⟩,
   verifyPayment_unavailable_marks_failed webhookStore 1 7 ocNet 9 webhookPayment
     (by decide) rfl (Or.inl ⟨rfl, rfl⟩)⟩

/-! ### C4 -/

lemma newPayment_order (orderId user : Nat) (amount : ℚ) (method : String)
    (newPid now : Nat) :
    (newPayment orderId user amount method newPid now).order = orderId := by
  unfold newPayment
  dsimp only
  split_ifs <;> rfl

lemma newPayment_amount (orderId user : Nat) (amount : ℚ) (method : String)
    (newPid now : Nat) :
    (newPayment orderId user amount method newPid now).amount = amount := by
  unfold newPayment
  dsimp only
  split_ifs <;> rfl

lemma newPayment_status (orderId user : Nat) (amount : ℚ) (method : String)
    (newPid now : Nat) :
    (newPayment orderId user amount method newPid now).status = "pending" ∨
    (newPayment orderId user amount method newPid now).status = "processing" := by
  unfold newPayment
  dsimp only
  split_ifs <;> simp

lemma newPayment_active (orderId user : Nat) (amount : ℚ) (method : String)
    (newPid now : Nat) :
    activeStatuses.contains (newPayment orderId user amount method newPid now).status
      = true := by
  unfold newPayment
  dsimp only
  split_ifs <;> rfl

/-- C4 counterexample: the duplicate check queries only the statuses
`pending`, `processing` and `completed` — a `cancelled` Payment (a
status other than `failed`, hence non-terminal-failed under the
claim's wording) does NOT block: initiatePayment succeeds although a
Payment with status ≠ `failed` already exists for the order. -/
theorem initiatePayment_cancelled_not_blocking :
    (∃ q ∈ dupStore.payments, q.order = 1 ∧ q.status ≠ "failed") ∧
    (initiatePayment dupStore 1 7 "card" 2 5).1
      = .ok (newPayment 1 7 24000 "card" 2 5) ∧
    (newPayment 1 7 24000 "card" 2 5).status = "pending" := by
  refine ⟨by decide, by decide, by decide⟩

/-- C4 amended: initiatePayment (for an order owned by the requester
and still `pending`) is blocked exactly by an existing Payment whose
status is `pending`, `processing` or `completed` — a `failed` Payment,
and equally a `cancelled` or (partially) refunded one, does not block.
When nothing blocks, it creates exactly one Payment in such an active
state (amount the order's total, status `pending`, or `processing` for
bank transfers), and an immediately repeated call fails with
DuplicatePayment leaving the store unchanged. -/
theorem initiatePayment_duplicate_rule
    (s : Store) (orderId user : Nat) (method : String) (newPid now : Nat)
    (order : Order)
    (hord : findOrder s orderId = some order)
    (huser : order.user = user)
    (hpend : order.status = "pending") :
    ((∃ q ∈ s.payments, q.order = orderId ∧ activeStatuses.contains q.status) →
      initiatePayment s orderId user method newPid now
        = (.error .duplicatePayment, s)) ∧
    ((∀ q ∈ s.payments, q.order = orderId → ¬ activeStatuses.contains q.status) →
      ∃ pay, initiatePayment s orderId user method newPid now
          = (.ok pay, { s with payments := s.payments ++ [pay] }) ∧
        pay.order = orderId ∧
        pay.amount = order.pricing.total ∧
        (pay.status = "pending" ∨ pay.status = "processing") ∧
        ((s.payments ++ [pay]).filter (fun q => q.order == orderId &&
            activeStatuses.contains q.status)).length = 1 ∧
        (∀ newPid₂ now₂,
          initiatePayment { s with payments := s.payments ++ [pay] }
              orderId user method newPid₂ now₂
            = (.error .duplicatePayment,
               { s with payments := s.payments ++ [pay] }))) := by
  constructor
  · rintro ⟨q, hq, hqo, hqs⟩
    unfold initiatePayment
    rw [hord]
    dsimp only
    rw [if_neg (by simp [huser]), if_neg (by simp [hpend]),
      if_pos ((List.find?_isSome).mpr ⟨q, hq, by simp [hqo]; simpa using hqs⟩)]
  · intro hnone
    have hflt : ∀ q ∈ s.payments, ((fun p => p.order == orderId &&
        activeStatuses.contains p.status) q) = false := by
      intro q hq
      by_cases hqo : q.order = orderId
      · have hna := hnone q hq hqo
        simp only [Bool.and_eq_false_iff]
        right
        simpa using hna
      · simp [hqo]
    have hfltn : ∀ q ∈ s.payments, ¬((fun p => p.order == orderId &&
        activeStatuses.contains p.status) q = true) := by
      intro q hq
      rw [hflt q hq]
      simp
    have hfindnone : s.payments.find? (fun p => p.order == orderId &&
        activeStatuses.contains p.status) = none :=
      List.find?_eq_none.mpr hfltn
    refine ⟨newPayment orderId user order.pricing.total method newPid now,
      ?_, newPayment_order .., newPayment_amount .., newPayment_status .., ?_, ?_⟩
    · unfold initiatePayment
      rw [hord]
      dsimp only
      rw [if_neg (by simp [huser]), if_neg (by simp [hpend]),
        if_neg (by rw [hfindnone]; simp)]
    · rw [List.filter_append, List.filter_eq_nil_iff.mpr hfltn, List.nil_append,
        List.filter_cons_of_pos (by
          rcases newPayment_status orderId user order.pricing.total method newPid now
            with h | h <;>
            simp [newPayment_order, h, activeStatuses])]
      rfl
    · intro newPid₂ now₂
      have hord₂ : findOrder { s with payments := s.payments ++
          [newPayment orderId user order.pricing.total method newPid now] } orderId
          = some order := hord
      have hsome : (List.find? (fun p => p.order == orderId &&
          activeStatuses.contains p.status) (s.payments ++
          [newPayment orderId user order.pricing.total method newPid now])).isSome
          = true :=
        (List.find?_isSome).mpr
          ⟨newPayment orderId user order.pricing.total method newPid now,
           List.mem_append_right _ (List.mem_singleton.mpr rfl),
           by rcases newPayment_status orderId user order.pricing.total method
                newPid now with h | h <;>
              simp [newPayment_order, h, activeStatuses]⟩
      unfold initiatePayment
      rw [hord₂]
      dsimp only
      rw [if_neg (by simp [huser]), if_neg (by simp [hpend]), if_pos hsome]

/-- Witness for C4's amended theorem: on a store holding only a
`cancelled` payment for the pending order, the first call succeeds and
the second call fails with DuplicatePayment. -/
theorem initiatePayment_duplicate_rule_witness :
    (findOrder dupStore 1 = some webhookOrder ∧ webhookOrder.user = 7 ∧
      webhookOrder.status = "pending" ∧
      (∀ q ∈ dupStore.payments, q.order = 1 → ¬ activeStatuses.contains q.status)) ∧
    (∃ pay, initiatePayment dupStore 1 7 "card" 2 5
        = (.ok pay, { dupStore with payments := dupStore.payments ++ [pay] }) ∧
      pay.order = 1 ∧
      pay.amount = webhookOrder.pricing.total ∧
      (pay.status = "pending" ∨ pay.status = "processing") ∧
      ((dupStore.payments ++ [pay]).filter (fun q => q.order == 1 &&
          activeStatuses.contains q.status)).length = 1 ∧
      (∀ newPid₂ now₂,
        initiatePayment { dupStore with payments := dupStore.payments ++ [pay] }
            1 7 "card" newPid₂ now₂
          = (.error .duplicatePayment,
             { dupStore with payments := dupStore.payments ++ [pay] }))) :=
  ⟨⟨by decide, rfl, rfl, by decide⟩,
   (initiatePayment_duplicate_rule dupStore 1 7 "card" 2 5 webhookOrder
     (by decide) rfl rfl).2 (by decide)⟩

/-! ### C6 -/

/-- C6, evaluated at the failing input (code bug): a Payment of amount
100 with no refunds accepts a refund of 60 — and is then marked
`refunded` although the cumulative refunds (60) are well short of the
payment amount, because the status check re-reads the `totalRefunded`
virtual after the push (which already includes the new refund) and
adds the amount once more.  The method also enforces no status
precondition: a `pending` Payment accepts a refund just the same.  The
over-refund guard itself does hold: a refund that would push the
cumulative total past the amount is rejected with the payment
unchanged. -/
theorem addRefund_bug_at_failing_input :
    (refundPayment.amount = 100 ∧ refundPayment.status = "completed" ∧
      totalRefunded refundPayment = 0) ∧
    ((addRefund refundPayment 60 "requested" none 5).map
        (fun q => (totalRefunded q, q.status)) = .ok (60, "refunded")) ∧
    ((addRefund pendingRefundPayment 10 "requested" none 5).map
        (fun q => q.status) = .ok "partially_refunded") ∧
    (addRefund refundPayment 101 "requested" none 5
      = .error "Total refund amount cannot exceed payment amount") := by
  refine ⟨⟨rfl, rfl, by norm_num [totalRefunded, refundPayment, webhookPayment]⟩,
    ?_, ?_, ?_⟩
  · norm_num [addRefund, totalRefunded, refundPayment, webhookPayment, Except.map]
  · norm_num [addRefund, totalRefunded, pendingRefundPayment, refundPayment,
      webhookPayment, Except.map]
  · norm_num [addRefund, totalRefunded, refundPayment, webhookPayment]

end Shop
